import Mathlib

/-!
Verification of the file-ingestion pipeline of the Repairium RAG API
(`src/main.py`): the blob fetcher `download_file_from_uri` and the
ingestion coordinator `add_file_to_library`.

The Python code is embedded shallowly.  External effects (the HTTP GET,
the llmware library store, the parser `library.add_file`, the local
filesystem writes and removals) are resolved by an explicit environment
record, so each run of the pipeline is a deterministic Lean function of
the request, the environment, the library store and the filesystem.
-/

namespace Repairium

/-- A Python `dict` as returned by the parser: an association list. -/
abbrev Dict := List (String × String)

/-- The local filesystem: existing paths with their byte contents. -/
abbrev FS := List (String × String)

/-- `os.path.exists`. -/
def fsExists (fs : FS) (p : String) : Bool :=
  fs.any (fun e => e.1 = p)

/-- Contents of the file at `p`, if it exists. -/
def fsRead (fs : FS) (p : String) : Option String :=
  (fs.find? (fun e => e.1 = p)).map (fun e => e.2)

/-- `open(p, 'wb')` followed by a full write: create or truncate `p`. -/
def fsWrite (fs : FS) (p body : String) : FS :=
  (p, body) :: fs.filter (fun e => ¬ e.1 = p)

/-- `os.remove p`. -/
def fsRemove (fs : FS) (p : String) : FS :=
  fs.filter (fun e => ¬ e.1 = p)

/-- Outcome of the single `client.get(uri, follow_redirects=True)` call:
either a transport-level failure (DNS, connection, timeout — raised as an
`httpx.TransportError`) or a completed response with a status code and a
fully read body. -/
inductive FetchResult where
  | transportError : FetchResult
  | response (statusCode : Nat) (body : String) : FetchResult
deriving DecidableEq, Repr

/-- Python exception classes that the pipeline distinguishes.
`httpError` stands for `httpx.HTTPError` (covering both
`httpx.TransportError` and `httpx.HTTPStatusError`); the others are
ordinary exceptions that only match `except Exception`. -/
inductive Exn where
  | httpError : Exn
  | writeError : Exn
  | parseError : Exn
  | storeError : Exn
deriving DecidableEq, Repr

/-- Environment of one `download_file_from_uri` call. -/
structure DownloadEnv where
  /-- `tempfile.gettempdir()` for this process. -/
  tempDir : String
  /-- What the HTTP GET to the blob URI does. -/
  fetch : FetchResult
  /-- Whether the local write of the response body succeeds.  When it
  fails, `open(local_path, 'wb')` has already created (truncated) the
  file before `f.write` raises, so a partial file is left behind. -/
  writeOk : Bool
deriving DecidableEq, Repr

instance {ε α : Type} [DecidableEq ε] [DecidableEq α] :
    DecidableEq (Except ε α) := fun a b =>
  match a, b with
  | .error e, .error e' => decidable_of_iff (e = e') (by simp)
  | .ok x, .ok y => decidable_of_iff (x = y) (by simp)
  | .error _, .ok _ => isFalse (by simp)
  | .ok _, .error _ => isFalse (by simp)

/-- The `timeout=300.0` argument of the `httpx.AsyncClient` used by the
fetcher (seconds). -/
def downloadTimeoutSeconds : Nat := 300

/-- The `follow_redirects=True` argument of the GET issued by the fetcher. -/
def downloadFollowRedirects : Bool := true

/-- `pre` is a leading substring of `s` (over the character lists, so
that proofs can evaluate it). -/
def strStartsWith (pre s : String) : Bool :=
  pre.toList.isPrefixOf s.toList

/-- `post` is a trailing substring of `s`. -/
def strEndsWith (post s : String) : Bool :=
  post.toList.reverse.isPrefixOf s.toList.reverse

/-- `os.path.join` for one extra component, as used by the fetcher. -/
def osPathJoin (a b : String) : String :=
  if strStartsWith "/" b then b
  else if strEndsWith "/" a then a ++ b
  else a ++ "/" ++ b

/-- The staging path derived by the fetcher:
`os.path.join(temp_dir, f"llmware_{filename}")` — the raw caller-supplied
filename after a fixed tag, with no sanitization and no uniqueness token. -/
def stagingPath (tempDir filename : String) : String :=
  osPathJoin tempDir ("llmware_" ++ filename)

/-- `response.raise_for_status()` passes exactly on 2xx. -/
def statusSuccess (code : Nat) : Bool :=
  200 ≤ code ∧ code < 300

/-- Result of one fetcher call: the returned path or the raised
exception, the filesystem afterwards, and how many GET requests were
issued. -/
structure DownloadResult where
  result : Except Exn String
  fs : FS
  getCount : Nat
deriving DecidableEq, Repr

/-- Shallow embedding of `download_file_from_uri(uri, filename)`
(src/main.py lines 311–329).  It derives the staging path from the raw
filename, issues one GET, checks the status, and on success writes the
full body to the staging path and returns that path; it never removes
the file itself. -/
def download_file_from_uri (env : DownloadEnv) (uri filename : String)
    (fs : FS) : DownloadResult :=
  let localPath := stagingPath env.tempDir filename
  match env.fetch with
  | .transportError => ⟨.error .httpError, fs, 1⟩
  | .response code body =>
    if statusSuccess code then
      if env.writeOk then
        ⟨.ok localPath, fsWrite fs localPath body, 1⟩
      else
        -- open('wb') created/truncated the file, then the write raised
        ⟨.error .writeError, fsWrite fs localPath "", 1⟩
    else
      ⟨.error .httpError, fs, 1⟩

/-- Split a character list on `/`, accumulating the current segment in
reverse. -/
def splitSlashAux : List Char → List Char → List String
  | [], acc => [String.mk acc.reverse]
  | c :: cs, acc =>
    if c = '/' then String.mk acc.reverse :: splitSlashAux cs []
    else splitSlashAux cs (c :: acc)

/-- The `/`-separated segments of a path. -/
def splitSlash (p : String) : List String :=
  splitSlashAux p.toList []

/-- One step of POSIX path normalization over segments: empty segments
and `.` are dropped, `..` pops the previous segment (staying at the
root when there is none). -/
def normSeg (stack : List String) (seg : String) : List String :=
  if seg = "" ∨ seg = "." then stack
  else if seg = ".." then stack.dropLast
  else stack ++ [seg]

/-- Rebuild a `/`-separated path from segments. -/
def joinSlash : List String → String
  | [] => ""
  | [s] => s
  | s :: rest => s ++ "/" ++ joinSlash rest

/-- Normalize an absolute POSIX path, resolving `.` and `..`. -/
def normalizePath (p : String) : String :=
  "/" ++ joinSlash ((splitSlash p).foldl normSeg [])

/-- The library store visible to `Library()`: the set of library names. -/
structure Store where
  libs : List String
deriving DecidableEq, Repr

/-- Environment of one `add_file_to_library` call. -/
structure PipelineEnv where
  dl : DownloadEnv
  /-- When true, `Library().load_library` raises from the underlying
  store even for a present library (store unavailable/corrupt). -/
  loadFailure : Bool
  /-- Whether `Library().create_new_library` succeeds. -/
  createOk : Bool
  /-- What `library.add_file(temp_file_path)` does: raises, or returns
  `None` (`none`) or a dict. -/
  parse : Except Unit (Option Dict)
  /-- Whether `os.remove` succeeds during cleanup. -/
  removeOk : Bool
deriving DecidableEq, Repr

/-- `Library().load_library(name)`: raises when the store is failing or
the library is absent. -/
def loadLibrary (loadFailure : Bool) (name : String) (store : Store) :
    Except Exn Unit :=
  if loadFailure then .error .storeError
  else if name ∈ store.libs then .ok ()
  else .error .storeError

/-- `Library().create_new_library(name)`: registers the name (reusing an
existing registration), or raises when the store rejects the creation. -/
def createNewLibrary (createOk : Bool) (name : String) (store : Store) :
    Except Exn Store :=
  if createOk then
    .ok ⟨if name ∈ store.libs then store.libs else name :: store.libs⟩
  else .error .storeError

/-- The request body of `POST /libraries/files`. -/
structure AddFileRequest where
  filename : String
  library_name : String
  blob_uri : String
deriving DecidableEq, Repr

/-- The success response body. -/
structure AddFileResponse where
  filename : String
  library_name : String
  parsing_output : Dict
  message : String
deriving DecidableEq, Repr

/-- What the endpoint produces: a 200 response, or an `HTTPException`
with a status code (400 for fetch failures, 500 otherwise). -/
inductive Outcome where
  | success (resp : AddFileResponse) : Outcome
  | httpException (statusCode : Nat) : Outcome
deriving DecidableEq, Repr

/-- Python truthiness fallback `parsing_output or {}`: `None` and the
empty dict are falsy and replaced by `{}`; any non-empty dict passes
through unchanged. -/
def pyOrEmpty (d : Option Dict) : Dict :=
  match d with
  | none => []
  | some m => if m = [] then [] else m

/-- State after the `try`/`except` body of `add_file_to_library`, before
the `finally` cleanup runs. -/
structure StagesOut where
  outcome : Outcome
  store : Store
  fs : FS
  /-- The Python local `temp_file_path`: set only when the fetcher
  returned normally. -/
  tempFilePath : Option String
  /-- Whether `library.add_file` was reached. -/
  parseAttempted : Bool
  /-- Whether `create_new_library` was called (the bare `except` around
  `load_library` was taken). -/
  createAttempted : Bool
  /-- Whether both `load_library` and `create_new_library` raised. -/
  resolutionFailed : Bool
deriving DecidableEq, Repr

/-- The `try`/`except` body of `add_file_to_library` (src/main.py lines
256–300): load-or-create the library, download the blob, hand the staged
path to the parser, and map exceptions to `HTTPException`s
(`httpx.HTTPError` → 400, anything else → 500). -/
def runStages (dl : DownloadEnv) (loadFailure createOk : Bool)
    (parse : Except Unit (Option Dict)) (req : AddFileRequest)
    (store : Store) (fs : FS) : StagesOut :=
  match loadLibrary loadFailure req.library_name store with
  | .error _ =>
    -- bare `except:` — every load exception falls back to creation
    match createNewLibrary createOk req.library_name store with
    | .error _ =>
      -- creation raised → `except Exception` → 500; nothing staged
      ⟨.httpException 500, store, fs, none, false, true, true⟩
    | .ok store' => runAfterResolve dl parse req store' fs true
  | .ok _ => runAfterResolve dl parse req store fs false
where
  /-- Stages 2–3 (download, parse) with the resolved library store. -/
  runAfterResolve (dl : DownloadEnv) (parse : Except Unit (Option Dict))
      (req : AddFileRequest) (store : Store) (fs : FS)
      (createAttempted : Bool) : StagesOut :=
    let d := download_file_from_uri dl req.blob_uri req.filename fs
    match d.result with
    | .error .httpError =>
      -- `except httpx.HTTPError` → 400; `temp_file_path` never assigned
      ⟨.httpException 400, store, d.fs, none, false, createAttempted, false⟩
    | .error _ =>
      -- e.g. OSError from the local write → `except Exception` → 500;
      -- `temp_file_path` still None even though a partial file may exist
      ⟨.httpException 500, store, d.fs, none, false, createAttempted, false⟩
    | .ok path =>
      match parse with
      | .error _ =>
        -- parser raised → `except Exception` → 500
        ⟨.httpException 500, store, d.fs, some path, true, createAttempted, false⟩
      | .ok out =>
        ⟨.success ⟨req.filename, req.library_name, pyOrEmpty out,
            "File added successfully to library"⟩,
          store, d.fs, some path, true, createAttempted, false⟩

/-- The `finally` block (src/main.py lines 301–308): if `temp_file_path`
was set and the file still exists, try to remove it; a removal failure
is logged and swallowed. -/
def cleanupTempFile (removeOk : Bool) (tempFilePath : Option String)
    (fs : FS) : FS :=
  match tempFilePath with
  | none => fs
  | some p =>
    if fsExists fs p then
      if removeOk then fsRemove fs p else fs
    else fs

/-- Result of one full `add_file_to_library` call. -/
structure PipelineResult where
  outcome : Outcome
  store : Store
  fs : FS
  parseAttempted : Bool
  createAttempted : Bool
  resolutionFailed : Bool
deriving DecidableEq, Repr

/-- Shallow embedding of the `POST /libraries/files` handler
`add_file_to_library(request)` (src/main.py lines 248–308): the staged
try/except body followed by the guaranteed `finally` cleanup, which can
only change the filesystem, never the outcome. -/
def add_file_to_library (env : PipelineEnv) (req : AddFileRequest)
    (store : Store) (fs : FS) : PipelineResult :=
  let s := runStages env.dl env.loadFailure env.createOk env.parse req store fs
  ⟨s.outcome, s.store, cleanupTempFile env.removeOk s.tempFilePath s.fs,
    s.parseAttempted, s.createAttempted, s.resolutionFailed⟩

/-- Whether the fetch stage raises an `httpx.HTTPError`: a transport
failure, or a completed response that `raise_for_status` rejects. -/
def fetchFails : FetchResult → Bool
  | .transportError => true
  | .response code _ => ! statusSuccess code

/-! ### Helper lemmas -/

theorem loadLibrary_error (lf : Bool) (name : String) (store : Store)
    (h : lf = true ∨ name ∉ store.libs) :
    loadLibrary lf name store = .error .storeError := by
  rcases h with h | h
  · simp [loadLibrary, h]
  · cases lf <;> simp [loadLibrary, h]

theorem loadLibrary_ok (lf : Bool) (name : String) (store : Store)
    (h1 : lf = false) (h2 : name ∈ store.libs) :
    loadLibrary lf name store = .ok () := by
  simp [loadLibrary, h1, h2]

theorem createNewLibrary_false (name : String) (store : Store) :
    createNewLibrary false name store = .error .storeError := by
  simp [createNewLibrary]

theorem runAfterResolve_store (dl : DownloadEnv)
    (parse : Except Unit (Option Dict)) (req : AddFileRequest)
    (store : Store) (fs : FS) (ca : Bool) :
    (runStages.runAfterResolve dl parse req store fs ca).store = store := by
  unfold runStages.runAfterResolve
  dsimp only
  repeat' split
  all_goals rfl

theorem runAfterResolve_createAttempted (dl : DownloadEnv)
    (parse : Except Unit (Option Dict)) (req : AddFileRequest)
    (store : Store) (fs : FS) (ca : Bool) :
    (runStages.runAfterResolve dl parse req store fs ca).createAttempted = ca := by
  unfold runStages.runAfterResolve
  dsimp only
  repeat' split
  all_goals rfl

theorem runAfterResolve_resolutionFailed (dl : DownloadEnv)
    (parse : Except Unit (Option Dict)) (req : AddFileRequest)
    (store : Store) (fs : FS) (ca : Bool) :
    (runStages.runAfterResolve dl parse req store fs ca).resolutionFailed = false := by
  unfold runStages.runAfterResolve
  dsimp only
  repeat' split
  all_goals rfl

theorem runAfterResolve_fetch_fail (dl : DownloadEnv)
    (parse : Except Unit (Option Dict)) (req : AddFileRequest)
    (store : Store) (fs : FS) (ca : Bool)
    (hf : fetchFails dl.fetch = true) :
    runStages.runAfterResolve dl parse req store fs ca =
      ⟨.httpException 400, store, fs, none, false, ca, false⟩ := by
  unfold runStages.runAfterResolve download_file_from_uri
  cases hd : dl.fetch with
  | transportError => rfl
  | response code body =>
    have hs : statusSuccess code = false := by
      simpa [fetchFails, hd] using hf
    simp [hs]

theorem runAfterResolve_write_ok (dl : DownloadEnv)
    (parse : Except Unit (Option Dict)) (req : AddFileRequest)
    (store : Store) (fs : FS) (ca : Bool) (code : Nat) (body : String)
    (hd : dl.fetch = .response code body) (hs : statusSuccess code = true)
    (hw : dl.writeOk = true) :
    runStages.runAfterResolve dl parse req store fs ca =
      (match parse with
        | .error _ =>
          ⟨.httpException 500, store,
            fsWrite fs (stagingPath dl.tempDir req.filename) body,
            some (stagingPath dl.tempDir req.filename), true, ca, false⟩
        | .ok out =>
          ⟨.success ⟨req.filename, req.library_name, pyOrEmpty out,
              "File added successfully to library"⟩,
            store,
            fsWrite fs (stagingPath dl.tempDir req.filename) body,
            some (stagingPath dl.tempDir req.filename), true, ca, false⟩) := by
  unfold runStages.runAfterResolve download_file_from_uri
  rw [hd]
  cases parse <;> simp [hs, hw]

theorem runStages_load_ok (dl : DownloadEnv) (lf co : Bool)
    (parse : Except Unit (Option Dict)) (req : AddFileRequest)
    (store : Store) (fs : FS)
    (h1 : lf = false) (h2 : req.library_name ∈ store.libs) :
    runStages dl lf co parse req store fs =
      runStages.runAfterResolve dl parse req store fs false := by
  unfold runStages
  rw [loadLibrary_ok lf req.library_name store h1 h2]

theorem runStages_created (dl : DownloadEnv) (lf co : Bool)
    (parse : Except Unit (Option Dict)) (req : AddFileRequest)
    (store : Store) (fs : FS)
    (hload : loadLibrary lf req.library_name store = .error .storeError)
    (hc : co = true) :
    runStages dl lf co parse req store fs =
      runStages.runAfterResolve dl parse req
        ⟨if req.library_name ∈ store.libs then store.libs
          else req.library_name :: store.libs⟩ fs true := by
  unfold runStages
  rw [hload]
  unfold createNewLibrary
  rw [hc]
  simp

theorem runStages_resolution_failed (dl : DownloadEnv) (lf : Bool)
    (parse : Except Unit (Option Dict)) (req : AddFileRequest)
    (store : Store) (fs : FS)
    (hload : loadLibrary lf req.library_name store = .error .storeError) :
    runStages dl lf false parse req store fs =
      ⟨.httpException 500, store, fs, none, false, true, true⟩ := by
  unfold runStages
  rw [hload, createNewLibrary_false]

theorem runStages_resolves (dl : DownloadEnv) (lf co : Bool)
    (parse : Except Unit (Option Dict)) (req : AddFileRequest)
    (store : Store) (fs : FS)
    (hres : (lf = false ∧ req.library_name ∈ store.libs) ∨ co = true) :
    ∃ store' ca, runStages dl lf co parse req store fs =
      runStages.runAfterResolve dl parse req store' fs ca := by
  cases h : loadLibrary lf req.library_name store with
  | ok u =>
    refine ⟨store, false, ?_⟩
    unfold runStages
    rw [h]
  | error e =>
    have hco : co = true := by
      rcases hres with ⟨h1, h2⟩ | hco
      · rw [loadLibrary_ok lf req.library_name store h1 h2] at h
        cases h
      · exact hco
    have he : e = .storeError := by
      unfold loadLibrary at h
      split at h
      · cases h; rfl
      · split at h
        · cases h
        · cases h; rfl
    refine ⟨⟨if req.library_name ∈ store.libs then store.libs
      else req.library_name :: store.libs⟩, true, ?_⟩
    exact runStages_created dl lf co parse req store fs (he ▸ h) hco

theorem add_file_outcome_eq (env : PipelineEnv) (req : AddFileRequest)
    (store : Store) (fs : FS) :
    (add_file_to_library env req store fs).outcome =
      (runStages env.dl env.loadFailure env.createOk env.parse req store fs).outcome :=
  rfl

theorem add_file_store_eq (env : PipelineEnv) (req : AddFileRequest)
    (store : Store) (fs : FS) :
    (add_file_to_library env req store fs).store =
      (runStages env.dl env.loadFailure env.createOk env.parse req store fs).store :=
  rfl

theorem add_file_parseAttempted_eq (env : PipelineEnv) (req : AddFileRequest)
    (store : Store) (fs : FS) :
    (add_file_to_library env req store fs).parseAttempted =
      (runStages env.dl env.loadFailure env.createOk env.parse req store fs).parseAttempted :=
  rfl

theorem add_file_createAttempted_eq (env : PipelineEnv) (req : AddFileRequest)
    (store : Store) (fs : FS) :
    (add_file_to_library env req store fs).createAttempted =
      (runStages env.dl env.loadFailure env.createOk env.parse req store fs).createAttempted :=
  rfl

theorem add_file_resolutionFailed_eq (env : PipelineEnv) (req : AddFileRequest)
    (store : Store) (fs : FS) :
    (add_file_to_library env req store fs).resolutionFailed =
      (runStages env.dl env.loadFailure env.createOk env.parse req store fs).resolutionFailed :=
  rfl

theorem fsRead_fsWrite (fs : FS) (p body : String) :
    fsRead (fsWrite fs p body) p = some body := by
  simp [fsRead, fsWrite]

/-! ### Claims -/

/-- C1: the claim says the staged local file never exists after an
ingestion call returns, on every exit path.  The code violates this on
the "staging itself fails partway" path: here the fetch returns 200 but
the local write raises after `open` created the file, so
`temp_file_path` is still `None` when the `finally` block runs, the
cleanup is skipped, and the staged file (created during the call — the
filesystem was empty before) still exists after the call returns with a
500. -/
theorem c1_staged_file_survives_partial_staging :
    (add_file_to_library
        ⟨⟨"/tmp", .response 200 "BODY", false⟩, false, true,
          .ok (some [("doc", "1")]), true⟩
        ⟨"a.pdf", "lib1", "https://example/a.pdf"⟩ ⟨["lib1"]⟩ []).outcome =
      .httpException 500 ∧
    fsExists
      (add_file_to_library
        ⟨⟨"/tmp", .response 200 "BODY", false⟩, false, true,
          .ok (some [("doc", "1")]), true⟩
        ⟨"a.pdf", "lib1", "https://example/a.pdf"⟩ ⟨["lib1"]⟩ []).fs
      (stagingPath "/tmp" "a.pdf") = true ∧
    fsExists [] (stagingPath "/tmp" "a.pdf") = false := by
  refine ⟨rfl, ?_, rfl⟩
  rfl

/-- C2: when library resolution succeeds, a fetch failure (transport
error or non-2xx status) yields HTTP 400 with the parse stage never
reached, while a parser exception after a successful fetch and write
yields HTTP 500. -/
theorem c2_error_classification (env : PipelineEnv) (req : AddFileRequest)
    (store : Store) (fs : FS)
    (hres : (env.loadFailure = false ∧ req.library_name ∈ store.libs) ∨
      env.createOk = true) :
    (fetchFails env.dl.fetch = true →
      (add_file_to_library env req store fs).outcome = .httpException 400 ∧
      (add_file_to_library env req store fs).parseAttempted = false) ∧
    (∀ code body, env.dl.fetch = .response code body →
      statusSuccess code = true → env.dl.writeOk = true →
      env.parse = .error () →
      (add_file_to_library env req store fs).outcome = .httpException 500) := by
  obtain ⟨store', ca, heq⟩ :=
    runStages_resolves env.dl env.loadFailure env.createOk env.parse req store fs hres
  constructor
  · intro hf
    have h400 := runAfterResolve_fetch_fail env.dl env.parse req store' fs ca hf
    constructor
    · rw [add_file_outcome_eq, heq, h400]
    · rw [add_file_parseAttempted_eq, heq, h400]
  · intro code body hd hs hw hp
    rw [add_file_outcome_eq, heq,
      runAfterResolve_write_ok env.dl env.parse req store' fs ca code body hd hs hw, hp]

/-- Witness for C2: a transport error yields 400, a parser exception
after a 200 fetch yields 500, at concrete inputs. -/
theorem c2_error_classification_witness :
    (add_file_to_library
        ⟨⟨"/tmp", .transportError, true⟩, false, true, .ok (some []), true⟩
        ⟨"a.pdf", "lib1", "u"⟩ ⟨["lib1"]⟩ []).outcome = .httpException 400 ∧
    (add_file_to_library
        ⟨⟨"/tmp", .response 200 "B", true⟩, false, true, .error (), true⟩
        ⟨"a.pdf", "lib1", "u"⟩ ⟨["lib1"]⟩ []).outcome = .httpException 500 := by
  constructor
  · exact ((c2_error_classification
      ⟨⟨"/tmp", .transportError, true⟩, false, true, .ok (some []), true⟩
      ⟨"a.pdf", "lib1", "u"⟩ ⟨["lib1"]⟩ [] (Or.inr rfl)).1 rfl).1
  · exact (c2_error_classification
      ⟨⟨"/tmp", .response 200 "B", true⟩, false, true, .error (), true⟩
      ⟨"a.pdf", "lib1", "u"⟩ ⟨["lib1"]⟩ [] (Or.inr rfl)).2 200 "B" rfl
      (by decide) rfl rfl

/-- C3: library resolution is load-or-create.  When the library name is
absent, the first call creates it; a second call with the same name
loads the existing library, never calls create again, never fails
resolution, and the store holds exactly one library of that name. -/
theorem c3_load_or_create (env1 env2 : PipelineEnv)
    (req1 req2 : AddFileRequest) (store : Store) (fs1 fs2 : FS)
    (hname : req2.library_name = req1.library_name)
    (_h1 : env1.loadFailure = false) (h2 : env2.loadFailure = false)
    (hc : env1.createOk = true)
    (habs : req1.library_name ∉ store.libs) :
    (add_file_to_library env1 req1 store fs1).createAttempted = true ∧
    (add_file_to_library env1 req1 store fs1).store.libs =
      req1.library_name :: store.libs ∧
    (add_file_to_library env2 req2
      (add_file_to_library env1 req1 store fs1).store fs2).createAttempted = false ∧
    (add_file_to_library env2 req2
      (add_file_to_library env1 req1 store fs1).store fs2).resolutionFailed = false ∧
    (add_file_to_library env2 req2
      (add_file_to_library env1 req1 store fs1).store fs2).store =
      (add_file_to_library env1 req1 store fs1).store ∧
    ((add_file_to_library env2 req2
      (add_file_to_library env1 req1 store fs1).store fs2).store.libs.count
        req1.library_name) = 1 := by
  have hload1 : loadLibrary env1.loadFailure req1.library_name store =
      .error .storeError :=
    loadLibrary_error _ _ _ (Or.inr habs)
  have heq1 := runStages_created env1.dl env1.loadFailure env1.createOk
    env1.parse req1 store fs1 hload1 hc
  have hstore1 : (add_file_to_library env1 req1 store fs1).store =
      ⟨req1.library_name :: store.libs⟩ := by
    rw [add_file_store_eq, heq1, runAfterResolve_store]
    simp [habs]
  have hca1 : (add_file_to_library env1 req1 store fs1).createAttempted = true := by
    rw [add_file_createAttempted_eq, heq1, runAfterResolve_createAttempted]
  have hmem2 : req2.library_name ∈ (add_file_to_library env1 req1 store fs1).store.libs := by
    rw [hstore1, hname]
    exact List.mem_cons_self _ _
  have heq2 := runStages_load_ok env2.dl env2.loadFailure env2.createOk env2.parse
    req2 (add_file_to_library env1 req1 store fs1).store fs2 h2 hmem2
  refine ⟨hca1, by rw [hstore1], ?_, ?_, ?_, ?_⟩
  · rw [add_file_createAttempted_eq, heq2, runAfterResolve_createAttempted]
  · rw [add_file_resolutionFailed_eq, heq2, runAfterResolve_resolutionFailed]
  · rw [add_file_store_eq, heq2, runAfterResolve_store]
  · rw [add_file_store_eq, heq2, runAfterResolve_store, hstore1]
    simp [List.count_cons_self, List.count_eq_zero.mpr habs]

/-- Witness for C3: two concrete ingestion calls against an empty store
leave exactly one library named `lib1`, with create called only once. -/
theorem c3_load_or_create_witness :
    (add_file_to_library
        ⟨⟨"/tmp", .response 200 "B2", true⟩, false, true, .ok (some []), true⟩
        ⟨"b.pdf", "lib1", "u2"⟩
        (add_file_to_library
          ⟨⟨"/tmp", .response 200 "B1", true⟩, false, true, .ok (some []), true⟩
          ⟨"a.pdf", "lib1", "u1"⟩ ⟨[]⟩ []).store []).store.libs.count "lib1" = 1 := by
  exact (c3_load_or_create
    ⟨⟨"/tmp", .response 200 "B1", true⟩, false, true, .ok (some []), true⟩
    ⟨⟨"/tmp", .response 200 "B2", true⟩, false, true, .ok (some []), true⟩
    ⟨"a.pdf", "lib1", "u1"⟩ ⟨"b.pdf", "lib1", "u2"⟩ ⟨[]⟩ [] [] rfl rfl rfl rfl
    (by decide)).2.2.2.2.2

/-- C4: on a successful ingestion call the `parsing_output` of the
response is the parser's mapping passed through unchanged, with the
empty mapping substituted exactly when the parser's output is falsy
(`None` or empty). -/
theorem c4_parsing_output_pass_through (env : PipelineEnv)
    (req : AddFileRequest) (store : Store) (fs : FS) (code : Nat)
    (body : String) (out : Option Dict)
    (hres : (env.loadFailure = false ∧ req.library_name ∈ store.libs) ∨
      env.createOk = true)
    (hd : env.dl.fetch = .response code body) (hs : statusSuccess code = true)
    (hw : env.dl.writeOk = true) (hp : env.parse = .ok out) :
    (add_file_to_library env req store fs).outcome =
      .success ⟨req.filename, req.library_name, pyOrEmpty out,
        "File added successfully to library"⟩ ∧
    (∀ m, out = some m → m ≠ [] → pyOrEmpty out = m) ∧
    ((out = none ∨ out = some ([] : Dict)) → pyOrEmpty out = []) := by
  obtain ⟨store', ca, heq⟩ :=
    runStages_resolves env.dl env.loadFailure env.createOk env.parse req store fs hres
  refine ⟨?_, ?_, ?_⟩
  · rw [add_file_outcome_eq, heq,
      runAfterResolve_write_ok env.dl env.parse req store' fs ca code body hd hs hw, hp]
  · intro m hm hne
    rw [hm]
    simp [pyOrEmpty, hne]
  · rintro (h | h) <;> simp [h, pyOrEmpty]

/-- Witness for C4: a concrete successful call returns the parser's
two-field mapping unchanged. -/
theorem c4_parsing_output_pass_through_witness :
    (add_file_to_library
        ⟨⟨"/tmp", .response 200 "B", true⟩, false, true,
          .ok (some [("blocks", "3"), ("pages", "1")]), true⟩
        ⟨"a.pdf", "lib1", "u"⟩ ⟨["lib1"]⟩ []).outcome =
      .success ⟨"a.pdf", "lib1", [("blocks", "3"), ("pages", "1")],
        "File added successfully to library"⟩ := by
  have h := (c4_parsing_output_pass_through
    ⟨⟨"/tmp", .response 200 "B", true⟩, false, true,
      .ok (some [("blocks", "3"), ("pages", "1")]), true⟩
    ⟨"a.pdf", "lib1", "u"⟩ ⟨["lib1"]⟩ [] 200 "B"
    (some [("blocks", "3"), ("pages", "1")]) (Or.inr rfl) rfl (by decide)
    rfl rfl).1
  simpa [pyOrEmpty] using h

/-- C5: the claim says the filename is sanitized before the staging path
is derived.  The code performs no sanitization: the raw filename is
spliced into `os.path.join(temp_dir, f"llmware_{filename}")`, so a
filename with `..` components derives a staging path that resolves
outside the temporary directory, and the fetcher returns exactly that
path. -/
theorem c5_filename_not_sanitized :
    stagingPath "/tmp" "x/../../etc/passwd" =
      "/tmp/llmware_x/../../etc/passwd" ∧
    normalizePath (stagingPath "/tmp" "x/../../etc/passwd") = "/etc/passwd" ∧
    strStartsWith "/tmp/" (normalizePath (stagingPath "/tmp" "x/../../etc/passwd")) =
      false ∧
    (download_file_from_uri ⟨"/tmp", .response 200 "BODY", true⟩
        "https://example/a" "x/../../etc/passwd" []).result =
      .ok "/tmp/llmware_x/../../etc/passwd" := by
  refine ⟨rfl, rfl, rfl, rfl⟩

/-- C6: the claim says staging paths of distinct calls are distinct even
for equal filenames.  The code derives the path from the raw filename
alone, with no uniqueness token: two calls with different URIs and
bodies but the same filename stage to the identical path. -/
theorem c6_staging_path_collision :
    (download_file_from_uri ⟨"/tmp", .response 200 "FIRST", true⟩
        "https://example/one" "a.pdf" []).result = .ok "/tmp/llmware_a.pdf" ∧
    (download_file_from_uri ⟨"/tmp", .response 200 "SECOND", true⟩
        "https://other/two" "a.pdf" []).result = .ok "/tmp/llmware_a.pdf" := by
  refine ⟨rfl, rfl⟩

/-- C7: every fetcher call issues exactly one GET, through a client
constructed with a 300-second total timeout and redirect following; on
success it writes the full response body to the single staged file and
returns that path, leaving the file in place. -/
theorem c7_fetcher_success_contract (env : DownloadEnv)
    (uri filename : String) (fs : FS) (code : Nat) (body : String)
    (hd : env.fetch = .response code body) (hs : statusSuccess code = true)
    (hw : env.writeOk = true) :
    downloadTimeoutSeconds = 300 ∧
    downloadFollowRedirects = true ∧
    (∀ e : DownloadEnv, ∀ u f : String, ∀ s : FS,
      (download_file_from_uri e u f s).getCount = 1) ∧
    (download_file_from_uri env uri filename fs).result =
      .ok (stagingPath env.tempDir filename) ∧
    fsRead (download_file_from_uri env uri filename fs).fs
      (stagingPath env.tempDir filename) = some body := by
  have hrun : download_file_from_uri env uri filename fs =
      ⟨.ok (stagingPath env.tempDir filename),
        fsWrite fs (stagingPath env.tempDir filename) body, 1⟩ := by
    unfold download_file_from_uri
    rw [hd]
    simp [hs, hw]
  refine ⟨rfl, rfl, ?_, ?_, ?_⟩
  · intro e u f s
    unfold download_file_from_uri
    cases e.fetch with
    | transportError => rfl
    | response c b =>
      dsimp only
      split
      · split <;> rfl
      · rfl
  · rw [hrun]
  · rw [hrun]
    exact fsRead_fsWrite fs _ body

/-- Witness for C7 at a concrete successful fetch. -/
theorem c7_fetcher_success_contract_witness :
    (download_file_from_uri ⟨"/tmp", .response 200 "BODY", true⟩
        "https://example/a" "a.pdf" []).result = .ok "/tmp/llmware_a.pdf" ∧
    fsRead (download_file_from_uri ⟨"/tmp", .response 200 "BODY", true⟩
        "https://example/a" "a.pdf" []).fs "/tmp/llmware_a.pdf" = some "BODY" := by
  have h := c7_fetcher_success_contract ⟨"/tmp", .response 200 "BODY", true⟩
    "https://example/a" "a.pdf" [] 200 "BODY" rfl (by decide) rfl
  exact ⟨h.2.2.2.1, h.2.2.2.2⟩

/-- C8: the pipeline's outcome (and the store and whether parsing was
attempted) is identical whether or not `os.remove` succeeds during
cleanup — a removal failure is swallowed; and when the staged path is
already gone at cleanup time the `finally` block does nothing, treating
it as success. -/
theorem c8_cleanup_failure_never_escalates (env : PipelineEnv)
    (req : AddFileRequest) (store : Store) (fs : FS) (b : Bool)
    (p : String) (fs2 : FS) (hgone : fsExists fs2 p = false) :
    (add_file_to_library { env with removeOk := b } req store fs).outcome =
      (add_file_to_library env req store fs).outcome ∧
    (add_file_to_library { env with removeOk := b } req store fs).store =
      (add_file_to_library env req store fs).store ∧
    (add_file_to_library { env with removeOk := b } req store fs).parseAttempted =
      (add_file_to_library env req store fs).parseAttempted ∧
    cleanupTempFile b (some p) fs2 = fs2 := by
  refine ⟨rfl, rfl, rfl, ?_⟩
  simp [cleanupTempFile, hgone]

/-- Witness for C8: with `os.remove` failing, a concrete successful run
still returns the 200 success outcome, and cleanup of an absent path
leaves the filesystem unchanged. -/
theorem c8_cleanup_failure_never_escalates_witness :
    (add_file_to_library
        ⟨⟨"/tmp", .response 200 "B", true⟩, false, true, .ok (some []), false⟩
        ⟨"a.pdf", "lib1", "u"⟩ ⟨["lib1"]⟩ []).outcome =
      (add_file_to_library
        ⟨⟨"/tmp", .response 200 "B", true⟩, false, true, .ok (some []), true⟩
        ⟨"a.pdf", "lib1", "u"⟩ ⟨["lib1"]⟩ []).outcome ∧
    cleanupTempFile false (some "/tmp/llmware_gone.pdf") [] = [] := by
  have h := c8_cleanup_failure_never_escalates
    ⟨⟨"/tmp", .response 200 "B", true⟩, false, true, .ok (some []), true⟩
    ⟨"a.pdf", "lib1", "u"⟩ ⟨["lib1"]⟩ [] false "/tmp/llmware_gone.pdf" [] rfl
  exact ⟨h.1, h.2.2.2⟩

/-- C9: a fetch that raises a transport error or completes with a
non-success status makes the fetcher raise `httpx.HTTPError` before the
staged file is opened, leaving the filesystem exactly as it was. -/
theorem c9_failed_fetch_writes_nothing (env : DownloadEnv)
    (uri filename : String) (fs : FS)
    (hfail : env.fetch = .transportError ∨
      ∃ code body, env.fetch = .response code body ∧
        statusSuccess code = false) :
    (download_file_from_uri env uri filename fs).result = .error .httpError ∧
    (download_file_from_uri env uri filename fs).fs = fs := by
  rcases hfail with h | ⟨code, body, hd, hs⟩
  · unfold download_file_from_uri
    rw [h]
    exact ⟨rfl, rfl⟩
  · unfold download_file_from_uri
    rw [hd]
    simp [hs]

/-- Witness for C9: a 404 response leaves a nonempty filesystem
untouched and raises the transport-class error. -/
theorem c9_failed_fetch_writes_nothing_witness :
    (download_file_from_uri ⟨"/tmp", .response 404 "not found", true⟩
        "https://example/missing" "a.pdf" [("/tmp/other", "x")]).result =
      .error .httpError ∧
    (download_file_from_uri ⟨"/tmp", .response 404 "not found", true⟩
        "https://example/missing" "a.pdf" [("/tmp/other", "x")]).fs =
      [("/tmp/other", "x")] := by
  exact c9_failed_fetch_writes_nothing
    ⟨"/tmp", .response 404 "not found", true⟩ "https://example/missing"
    "a.pdf" [("/tmp/other", "x")]
    (Or.inr ⟨404, "not found", rfl, by decide⟩)

/-- C10: every exception from `load_library` — store failure or absent
library alike — is swallowed by the bare `except:` and leads to a
creation attempt; resolution fails (with a 500) only when that creation
also raises. -/
theorem c10_bare_except_swallows_load_errors (env : PipelineEnv)
    (req : AddFileRequest) (store : Store) (fs : FS)
    (hload : env.loadFailure = true ∨ req.library_name ∉ store.libs) :
    (add_file_to_library env req store fs).createAttempted = true ∧
    (env.createOk = true →
      (add_file_to_library env req store fs).resolutionFailed = false) ∧
    (env.createOk = false →
      (add_file_to_library env req store fs).resolutionFailed = true ∧
      (add_file_to_library env req store fs).outcome = .httpException 500) := by
  have hl := loadLibrary_error env.loadFailure req.library_name store hload
  cases hc : env.createOk with
  | true =>
    have heq := runStages_created env.dl env.loadFailure env.createOk env.parse
      req store fs hl hc
    refine ⟨?_, fun _ => ?_, fun h => by simp [hc] at h⟩
    · rw [add_file_createAttempted_eq, heq, runAfterResolve_createAttempted]
    · rw [add_file_resolutionFailed_eq, heq, runAfterResolve_resolutionFailed]
  | false =>
    have heq := runStages_resolution_failed env.dl env.loadFailure env.parse
      req store fs hl
    refine ⟨?_, fun h => by simp [hc] at h, fun _ => ⟨?_, ?_⟩⟩
    · rw [add_file_createAttempted_eq, hc, heq]
    · rw [add_file_resolutionFailed_eq, hc, heq]
    · rw [add_file_outcome_eq, hc, heq]

/-- Witness for C10: with a failing store (library present but
`load_library` raising) and creation succeeding, the concrete call
attempts creation and does not fail resolution. -/
theorem c10_bare_except_swallows_load_errors_witness :
    (add_file_to_library
        ⟨⟨"/tmp", .response 200 "B", true⟩, true, true, .ok (some []), true⟩
        ⟨"a.pdf", "lib1", "u"⟩ ⟨["lib1"]⟩ []).createAttempted = true ∧
    (add_file_to_library
        ⟨⟨"/tmp", .response 200 "B", true⟩, true, true, .ok (some []), true⟩
        ⟨"a.pdf", "lib1", "u"⟩ ⟨["lib1"]⟩ []).resolutionFailed = false := by
  have h := c10_bare_except_swallows_load_errors
    ⟨⟨"/tmp", .response 200 "B", true⟩, true, true, .ok (some []), true⟩
    ⟨"a.pdf", "lib1", "u"⟩ ⟨["lib1"]⟩ [] (Or.inl rfl)
  exact ⟨h.1, h.2.1 rfl⟩

end Repairium
